import Mathlib

/-!
Verification of the reflective-surfaces parameter service
(src/reflective_surfaces_mcp/reflective_surfaces_mcp.py).

The file shallowly embeds the constant tables and the pure functions of the
source and proves the specified properties about them.  The source computes
with Python floats; the embedding uses exact rationals for the table data and
exact reals for the trigonometric formulas, so every theorem below is a
statement about the real-number semantics of the very same formulas.
Presentation-only table fields that no verified claim touches (free-text
keyword lists, color tints, display names) are omitted from the embedded
records; every field that any function reads is present.
-/

namespace ReflectiveSurfaces

open scoped Classical

/-- The five normalised parameter dimensions, in the declaration order of
REFLECTION_PARAMETER_NAMES in the source. -/
inductive ParamName
  | reflection_clarity
  | surface_roughness
  | metallic_character
  | geometric_distortion
  | environmental_drama
deriving DecidableEq, Repr

/-- REFLECTION_PARAMETER_NAMES: the iteration order used by every loop over
the parameter dimensions. -/
def REFLECTION_PARAMETER_NAMES : List ParamName :=
  [ParamName.reflection_clarity, ParamName.surface_roughness,
   ParamName.metallic_character, ParamName.geometric_distortion,
   ParamName.environmental_drama]

/-- A point of the 5-dimensional parameter space (a dict holding all five
parameter keys in the source). -/
structure Coords where
  reflection_clarity : ℚ
  surface_roughness : ℚ
  metallic_character : ℚ
  geometric_distortion : ℚ
  environmental_drama : ℚ
deriving DecidableEq, Repr

/-- Dictionary access state[p] for a fully populated parameter dict. -/
def Coords.get (c : Coords) : ParamName → ℚ
  | ParamName.reflection_clarity => c.reflection_clarity
  | ParamName.surface_roughness => c.surface_roughness
  | ParamName.metallic_character => c.metallic_character
  | ParamName.geometric_distortion => c.geometric_distortion
  | ParamName.environmental_drama => c.environmental_drama

/-- The fields of a SURFACE_MATERIALS entry that the verified functions read:
reflection_type, reflection_coefficient, roughness, ior, metallic. -/
structure Material where
  reflection_type : String
  reflection_coefficient : ℚ
  roughness : ℚ
  ior : ℚ
  metallic : ℚ
deriving DecidableEq, Repr

/-- SURFACE_MATERIALS, in source declaration order (Python dicts iterate in
insertion order). -/
def SURFACE_MATERIALS : List (String × Material) :=
  [("mirror_glass", ⟨"specular", 0.95, 0, 1.52, 0⟩),
   ("polished_chrome", ⟨"metallic", 0.88, 0.05, 2.7, 1⟩),
   ("brushed_metal", ⟨"glossy", 0.6, 0.25, 2.5, 0.9⟩),
   ("still_water", ⟨"specular", 0.85, 0.02, 1.33, 0⟩),
   ("rippled_water", ⟨"caustic", 0.6, 0.4, 1.33, 0⟩),
   ("frosted_glass", ⟨"diffuse", 0.2, 0.8, 1.52, 0⟩),
   ("wet_pavement", ⟨"glossy", 0.5, 0.3, 1.33, 0⟩),
   ("polished_marble", ⟨"glossy", 0.7, 0.15, 1.55, 0⟩),
   ("copper", ⟨"metallic", 0.75, 0.1, 2.8, 1⟩),
   ("gold", ⟨"metallic", 0.8, 0.08, 0.47, 1⟩)]

/-- F0 at normal incidence derived from the index of refraction,
f0 = ((ior - 1) / (ior + 1)) ** 2, as an exact rational. -/
def f0_of_ior (ior : ℚ) : ℚ := ((ior - 1) / (ior + 1)) ^ 2

/-- Schlick approximation from compute_fresnel_intensity:
f0 + (1 - f0) * (1 - cos theta) ** 5 with the viewing angle converted from
degrees to radians (math.radians x = x * pi / 180). -/
noncomputable def fresnel_intensity (viewing_angle_degrees : ℝ) (ior : ℚ) : ℝ :=
  let f0 : ℝ := (((ior : ℝ) - 1) / ((ior : ℝ) + 1)) ^ 2
  let angle_rad : ℝ := viewing_angle_degrees * Real.pi / 180
  let cos_theta : ℝ := Real.cos angle_rad
  f0 + (1 - f0) * (1 - cos_theta) ^ 5

/-- round(x, d) of the source, modelled as exact rounding to d decimal places.
Python rounds ties to even while round here rounds ties up; the two agree on
every value whose distance to a d-decimal grid point is not exactly half a
grid step, in particular on all values that already lie on the grid. -/
noncomputable def roundR (d : ℕ) (x : ℝ) : ℝ := (round (x * 10 ^ d) : ℤ) / 10 ^ d

/-- Prominence band of compute_fresnel_intensity (thresholds 0.8, 0.5, 0.2). -/
noncomputable def fresnel_prominence (fi : ℝ) : String :=
  if fi > 0.8 then "dominant"
  else if fi > 0.5 then "prominent"
  else if fi > 0.2 then "subtle"
  else "minimal"

/-- The JSON payload fields computed by compute_fresnel_intensity. -/
structure FresnelPayload where
  viewing_angle : ℝ
  material : String
  intensity : ℝ
  prominence : String
  f0_base_reflectance : ℝ
  cos_theta : ℝ
  ior : ℚ

/-- compute_fresnel_intensity: an unknown material_id is silently replaced by
"mirror_glass" before the table lookup; the payload reports the replaced id.
The getD fallback models the dict subscript, which cannot miss after the
replacement. -/
noncomputable def compute_fresnel_intensity (viewing_angle_degrees : ℝ)
    (material_id : String) : FresnelPayload :=
  let mid := if material_id ∈ SURFACE_MATERIALS.map Prod.fst then material_id
             else "mirror_glass"
  let mat := (SURFACE_MATERIALS.lookup mid).getD ⟨"", 0, 0, 0, 0⟩
  let f0 : ℝ := (((mat.ior : ℝ) - 1) / ((mat.ior : ℝ) + 1)) ^ 2
  let angle_rad : ℝ := viewing_angle_degrees * Real.pi / 180
  let cos_theta : ℝ := Real.cos angle_rad
  let fi : ℝ := f0 + (1 - f0) * (1 - cos_theta) ^ 5
  { viewing_angle := viewing_angle_degrees
    material := mid
    intensity := roundR 3 fi
    prominence := fresnel_prominence fi
    f0_base_reflectance := roundR 3 f0
    cos_theta := roundR 3 cos_theta
    ior := mat.ior }

/-- A REFLECTION_CANONICAL_STATES entry: five coordinates plus the reference
tags and description. -/
structure CanonicalState where
  coords : Coords
  material_ref : String
  geometry_ref : String
  description : String
deriving DecidableEq, Repr

/-- REFLECTION_CANONICAL_STATES in source declaration order. -/
def REFLECTION_CANONICAL_STATES : List (String × CanonicalState) :=
  [("mirror_still", ⟨⟨0.95, 0.02, 0.05, 0, 0.5⟩, "mirror_glass", "flat",
     "Perfect planar mirror, undistorted specular reflection, full clarity"⟩),
   ("chrome_curve", ⟨⟨0.85, 0.05, 0.95, 0.55, 0.45⟩, "polished_chrome", "convex",
     "Polished chrome convex surface, metallic sheen with fisheye compression"⟩),
   ("wet_street", ⟨⟨0.5, 0.3, 0, 0.05, 0.95⟩, "wet_pavement", "flat",
     "Rain-slicked urban pavement, neon reflections in dark puddles, high drama"⟩),
   ("rippled_pool", ⟨⟨0.35, 0.4, 0, 0.45, 0.55⟩, "rippled_water", "compound",
     "Moving water surface, dancing caustic patterns, warm ambient refraction"⟩),
   ("frosted_pane", ⟨⟨0.1, 0.85, 0, 0.05, 0.15⟩, "frosted_glass", "flat",
     "Heavy frosted glass, diffuse scattered glow, soft overcast light"⟩),
   ("copper_facet", ⟨⟨0.7, 0.12, 0.9, 0.65, 0.55⟩, "copper", "faceted",
     "Faceted copper surface, warm orange-tinted fragmented reflections"⟩),
   ("marble_hall", ⟨⟨0.65, 0.18, 0.05, 0, 0.4⟩, "polished_marble", "flat",
     "Polished marble floor, luxury architectural reflection with veined pattern"⟩),
   ("gold_dome", ⟨⟨0.8, 0.08, 1, 0.5, 0.65⟩, "gold", "convex",
     "Gold convex dome, warm yellow-tinted compressed panoramic reflection"⟩)]

/-- A REFLECTION_RHYTHMIC_PRESETS entry. -/
structure RhythmicPreset where
  state_a : String
  state_b : String
  pattern : String
  num_cycles : ℕ
  steps_per_cycle : ℕ
  description : String
deriving DecidableEq, Repr

/-- REFLECTION_RHYTHMIC_PRESETS in source declaration order. -/
def REFLECTION_RHYTHMIC_PRESETS : List (String × RhythmicPreset) :=
  [("clarity_sweep", ⟨"mirror_still", "frosted_pane", "sinusoidal", 3, 16,
     "Reflection clarity cycling from perfect specular mirror to heavy diffuse frost"⟩),
   ("urban_drama", ⟨"wet_street", "chrome_curve", "sinusoidal", 3, 24,
     "Alternating between rain-slicked urban puddles and industrial chrome curves"⟩),
   ("material_shift", ⟨"copper_facet", "mirror_still", "sinusoidal", 3, 20,
     "Metallic character transition from warm faceted copper to pure dielectric mirror"⟩),
   ("distortion_wave", ⟨"rippled_pool", "marble_hall", "triangular", 4, 15,
     "Geometric distortion oscillating between moving water caustics and flat stone"⟩),
   ("warmth_cycle", ⟨"gold_dome", "frosted_pane", "sinusoidal", 2, 26,
     "Temperature cycling from warm golden metallic dome to cool diffuse frost"⟩)]

/-- One sample of _generate_reflection_oscillation: the body of the loop at
step i.  Python's float modulo by 1.0 agrees with Int.fract on real
semantics. -/
noncomputable def oscillation_alpha (num_steps : ℕ) (num_cycles : ℝ)
    (pattern : String) (i : ℕ) : ℝ :=
  let t : ℝ := 2 * Real.pi * num_cycles * i / num_steps
  if pattern = "sinusoidal" then 0.5 * (1 + Real.sin t)
  else if pattern = "triangular" then
    let t_norm := Int.fract (t / (2 * Real.pi))
    if t_norm < 0.5 then 2 * t_norm else 2 * (1 - t_norm)
  else if pattern = "square" then
    let t_norm := Int.fract (t / (2 * Real.pi))
    if t_norm < 0.5 then 0 else 1
  else 0.5 * (1 + Real.sin t)

/-- _generate_reflection_oscillation: one alpha per step i in
range(num_steps). -/
noncomputable def generate_reflection_oscillation (num_steps : ℕ)
    (num_cycles : ℝ) (pattern : String) : List ℝ :=
  (List.range num_steps).map (oscillation_alpha num_steps num_cycles pattern)

/-- _interpolate_reflection_states: per dimension a * (1 - alpha) + b * alpha. -/
noncomputable def interpolate_reflection_states (state_a state_b : ParamName → ℝ)
    (alpha : ℝ) : ParamName → ℝ :=
  fun p => state_a p * (1 - alpha) + state_b p * alpha

/-- One element of the sequence built by generate_rhythmic_reflection_sequence. -/
structure SeqStep where
  state : ParamName → ℝ
  step : ℕ
  alpha : ℝ
  phase : ℝ

/-- The success payload of generate_rhythmic_reflection_sequence. -/
structure RhythmicPayload where
  state_a : String
  state_b : String
  pattern : String
  num_cycles : ℕ
  steps_per_cycle : ℕ
  total_steps : ℕ
  phase_offset : ℝ
  sequence : List SeqStep

/-- Result of generate_rhythmic_reflection_sequence: either the error payload
(error message plus the list of valid state names, no sequence data) or the
success payload. -/
inductive SeqResult
  | error (msg : String) (available : List String)
  | ok (payload : RhythmicPayload)

/-- generate_rhythmic_reflection_sequence.  The membership tests and the
rotation alphas[offset:] + alphas[:offset] follow the source; int() of the
positive float phase_offset * steps_per_cycle is its floor. -/
noncomputable def generate_rhythmic_reflection_sequence (state_a_id state_b_id : String)
    (oscillation_pattern : String) (num_cycles steps_per_cycle : ℕ)
    (phase_offset : ℝ) : SeqResult :=
  match REFLECTION_CANONICAL_STATES.lookup state_a_id with
  | none => SeqResult.error ("Unknown state: " ++ state_a_id)
      (REFLECTION_CANONICAL_STATES.map Prod.fst)
  | some sa =>
    match REFLECTION_CANONICAL_STATES.lookup state_b_id with
    | none => SeqResult.error ("Unknown state: " ++ state_b_id)
        (REFLECTION_CANONICAL_STATES.map Prod.fst)
    | some sb =>
      let total_steps := num_cycles * steps_per_cycle
      let alphas0 := generate_reflection_oscillation total_steps num_cycles
        oscillation_pattern
      let alphas := if phase_offset > 0 then
          let offset_steps := (⌊phase_offset * (steps_per_cycle : ℝ)⌋).toNat
          alphas0.drop offset_steps ++ alphas0.take offset_steps
        else alphas0
      let state_a : ParamName → ℝ := fun p => ((sa.coords.get p : ℚ) : ℝ)
      let state_b : ParamName → ℝ := fun p => ((sb.coords.get p : ℚ) : ℝ)
      SeqResult.ok
        { state_a := state_a_id
          state_b := state_b_id
          pattern := oscillation_pattern
          num_cycles := num_cycles
          steps_per_cycle := steps_per_cycle
          total_steps := total_steps
          phase_offset := phase_offset
          sequence := alphas.enum.map (fun ia =>
            { state := interpolate_reflection_states state_a state_b ia.2
              step := ia.1
              alpha := roundR 4 ia.2
              phase := roundR 4 (((ia.1 % steps_per_cycle : ℕ) : ℝ) /
                (steps_per_cycle : ℝ)) }) }

/-- REFLECTION_VISUAL_TYPES: the six archetype reference vectors, in source
declaration order. -/
def REFLECTION_VISUAL_TYPES : List (String × Coords) :=
  [("perfect_mirror", ⟨0.95, 0.02, 0.05, 0, 0.5⟩),
   ("metallic_gleam", ⟨0.82, 0.07, 0.95, 0.5, 0.55⟩),
   ("rain_noir", ⟨0.5, 0.3, 0, 0.05, 0.95⟩),
   ("caustic_dance", ⟨0.35, 0.4, 0, 0.45, 0.55⟩),
   ("frost_diffuse", ⟨0.1, 0.85, 0, 0.05, 0.15⟩),
   ("faceted_prism", ⟨0.7, 0.12, 0.75, 0.65, 0.55⟩)]

/-- A possibly partially populated input state: none models a missing
dimension, which state.get(p, 0.5) defaults to the midpoint. -/
def PartialState : Type := ParamName → Option ℝ

/-- A fully populated target dict, as the archetype coordinate tables are. -/
def lift_coords (c : Coords) : PartialState := fun p => some ((c.get p : ℚ) : ℝ)

/-- The accumulation loop of _reflection_param_distance before the final
square root: total += diff * diff over the five parameter names. -/
noncomputable def reflection_sq_diff_sum (state target : PartialState) : ℝ :=
  REFLECTION_PARAMETER_NAMES.foldl
    (fun total p =>
      let diff := ((state p).getD 0.5) - ((target p).getD 0.5)
      total + diff * diff) 0

/-- _reflection_param_distance: Euclidean distance with the 0.5 default on
missing dimensions of either side. -/
noncomputable def reflection_param_distance (state target : PartialState) : ℝ :=
  Real.sqrt (reflection_sq_diff_sum state target)

/-- Exact rational squared distance between two fully populated points; used
to decide concrete comparisons between archetype vectors. -/
def sq_diff_sum_q (a b : Coords) : ℚ :=
  REFLECTION_PARAMETER_NAMES.foldl
    (fun total p =>
      let diff := a.get p - b.get p
      total + diff * diff) 0

/-- One iteration of the best-candidate loop in
_find_nearest_reflection_visual_type: none models the initial
best_dist = inf state, which every distance beats. -/
noncomputable def find_nearest_step (state : PartialState)
    (best : Option (String × ℝ × Coords)) (entry : String × Coords) :
    Option (String × ℝ × Coords) :=
  let d := reflection_param_distance state (lift_coords entry.2)
  match best with
  | none => some (entry.1, d, entry.2)
  | some b => if d < b.2.1 then some (entry.1, d, entry.2) else some b

/-- _find_nearest_reflection_visual_type: scan the archetypes in declaration
order keeping the strictly closer candidate, so the first one wins ties. -/
noncomputable def find_nearest_reflection_visual_type (state : PartialState) :
    Option (String × ℝ × Coords) :=
  REFLECTION_VISUAL_TYPES.foldl (find_nearest_step state) none

/-- A JSON value as json.loads produces it. -/
inductive Json
  | null
  | bool (b : Bool)
  | num (q : ℚ)
  | str (s : String)
  | arr (l : List Json)
  | obj (l : List (String × Json))

/-- The uncaught Python exceptions the modelled operations can raise. -/
inductive PyExc
  | attributeError
  | typeError
deriving DecidableEq, Repr

/-- The dict key of a parameter dimension. -/
def param_key : ParamName → String
  | ParamName.reflection_clarity => "reflection_clarity"
  | ParamName.surface_roughness => "surface_roughness"
  | ParamName.metallic_character => "metallic_character"
  | ParamName.geometric_distortion => "geometric_distortion"
  | ParamName.environmental_drama => "environmental_drama"

/-- Using a decoded JSON value as a number, as Python arithmetic does: numbers
and booleans are numeric, anything else raises TypeError. -/
def json_to_num : Json → Except PyExc ℚ
  | Json.num q => Except.ok q
  | Json.bool b => Except.ok (if b then 1 else 0)
  | _ => Except.error PyExc.typeError

/-- state_dict.get(p, 0.5) followed by use in subtraction: a missing key gives
the numeric default, a present key must hold a numeric value. -/
def state_get_num (l : List (String × Json)) (p : ParamName) : Except PyExc ℚ :=
  match l.lookup (param_key p) with
  | none => Except.ok (1 / 2)
  | some j => json_to_num j

/-- The fully resolved parameter dict built from the five dimension values. -/
def vec_of (v1 v2 v3 v4 v5 : ℚ) : ParamName → ℚ := fun p =>
  match p with
  | ParamName.reflection_clarity => v1
  | ParamName.surface_roughness => v2
  | ParamName.metallic_character => v3
  | ParamName.geometric_distortion => v4
  | ParamName.environmental_drama => v5

/-- A fully populated rational dict viewed as a distance-loop input. -/
def lift_vec (f : ParamName → ℚ) : PartialState := fun p => some ((f p : ℚ) : ℝ)

/-- Outcome payload of extract_reflection_visual_vocabulary when no exception
escapes: either the caught-decode-failure error payload or the success data. -/
inductive VocabResult
  | errorPayload (msg : String)
  | success (nearest_type : String) (distance : ℝ) (input_state : ParamName → ℚ)

/-- extract_reflection_visual_vocabulary.  The try/except catches only the
JSON decode failure (modelled by the none input).  A decoded value that is
not an object raises AttributeError at state_dict.get; a non-numeric
dimension value raises TypeError inside the distance loop.  Python raises at
the first offending value, so the exception kinds match even though this
model examines all five dimensions at once. -/
noncomputable def extract_reflection_visual_vocabulary (state : Option Json) :
    Except PyExc VocabResult :=
  match state with
  | none => Except.ok (VocabResult.errorPayload ("Invalid JSON for state parameter"))
  | some (Json.obj l) =>
    match state_get_num l ParamName.reflection_clarity,
          state_get_num l ParamName.surface_roughness,
          state_get_num l ParamName.metallic_character,
          state_get_num l ParamName.geometric_distortion,
          state_get_num l ParamName.environmental_drama with
    | Except.ok v1, Except.ok v2, Except.ok v3, Except.ok v4, Except.ok v5 =>
      match find_nearest_reflection_visual_type (lift_vec (vec_of v1 v2 v3 v4 v5)) with
      | some r => Except.ok (VocabResult.success r.1 r.2.1 (vec_of v1 v2 v3 v4 v5))
      | none => Except.error PyExc.typeError
    | _, _, _, _, _ => Except.error PyExc.typeError
  | some _ => Except.error PyExc.attributeError

/-- round(x, 3) on an exact rational. -/
def round3 (x : ℚ) : ℚ := (round (x * 1000) : ℤ) / 1000

/-- Python min over a nonempty list ([] is unreachable behind the arity
guard; the 0 there is arbitrary). -/
def listMinQ : List ℚ → ℚ
  | [] => 0
  | x :: xs => xs.foldl min x

/-- Python max over a nonempty list. -/
def listMaxQ : List ℚ → ℚ
  | [] => 0
  | x :: xs => xs.foldl max x

/-- A min/max/delta span as reported by compare_reflection_scenarios. -/
structure SpanQ where
  sMin : ℚ
  sMax : ℚ
  sDelta : ℚ
deriving DecidableEq, Repr

/-- The visibility_span / distortion_span computation over the collected
per-scenario values. -/
def comparative_span_of (vals : List ℚ) : SpanQ :=
  { sMin := round3 (listMinQ vals)
    sMax := round3 (listMaxQ vals)
    sDelta := round3 (listMaxQ vals - listMinQ vals) }

/-- The aesthetic note appended when the visibility delta exceeds 0.4. -/
def vis_note : String :=
  "Significant visibility variation - creates strong compositional contrast"

/-- The aesthetic note appended when the distortion delta exceeds 0.3. -/
def dist_note : String :=
  "High distortion variation - geometric effects will be prominent differentiator"

/-- The aesthetic_trade_offs list built from the two spans. -/
def aesthetic_trade_offs (visSpan distSpan : SpanQ) : List String :=
  (if visSpan.sDelta > 0.4 then [vis_note] else []) ++
  (if distSpan.sDelta > 0.3 then [dist_note] else [])

/-- The input validation of compare_reflection_scenarios: either an error
payload or the decoded scenario list handed to the per-scenario loop. -/
inductive CompareGate
  | error (msg : String)
  | proceed (scenarios : List Json)

/-- Lines 800-808 of the source: undecodable JSON, a non-list value, and a
list of fewer than two scenarios are all rejected before any analysis. -/
def compare_scenarios_gate (parsed : Option Json) : CompareGate :=
  match parsed with
  | none => CompareGate.error ("Invalid JSON format for scenarios")
  | some (Json.arr l) =>
    if l.length < 2 then
      CompareGate.error ("Provide at least 2 scenarios as JSON array")
    else CompareGate.proceed l
  | some _ => CompareGate.error ("Provide at least 2 scenarios as JSON array")

/-- The keyframe index sampling of sequence mode in
generate_reflection_attractor_prompt:
int(i * (total_steps - 1) / (keyframe_count - 1)) for i in range(keyframe_count).
For the magnitudes reachable here the float division is exact enough that
int() of it equals natural floor division. -/
def sequence_step_indices (total_steps keyframe_count : ℕ) : List ℕ :=
  (List.range keyframe_count).map
    (fun i => i * (total_steps - 1) / (keyframe_count - 1))


/-! ### Helper lemmas -/

/-- A dict membership test k in d corresponds to lookup failure on the
association list. -/
lemma lookup_none_iff_not_mem_keys {β : Type} (l : List (String × β)) (k : String) :
    l.lookup k = none ↔ k ∉ l.map Prod.fst := by
  induction l with
  | nil => simp
  | cons x xs ih =>
    by_cases hx : k = x.1
    · subst hx
      simp [List.lookup]
    · simp [List.lookup, beq_false_of_ne hx, ih, hx, Ne.symm hx]

lemma lookup_mem_keys_some {β : Type} (l : List (String × β)) (k : String)
    (h : k ∈ l.map Prod.fst) : ∃ v, l.lookup k = some v := by
  rcases ho : l.lookup k with _ | v
  · exact absurd ((lookup_none_iff_not_mem_keys l k).1 ho) (not_not.2 h)
  · exact ⟨v, rfl⟩

/-! ### C1 -/

/-- C1: for every material in SURFACE_MATERIALS, compute_fresnel_intensity
implements Schlick.  At a 0-degree viewing angle the intensity equals the
F0 base reflectance ((ior-1)/(ior+1))^2 exactly, and it is strictly smaller
than the intensity at the 90-degree grazing angle. -/
theorem c1_fresnel_schlick_normal_vs_grazing (m : String) (mat : Material)
    (hm : (m, mat) ∈ SURFACE_MATERIALS) :
    fresnel_intensity 0 mat.ior = ((f0_of_ior mat.ior : ℚ) : ℝ) ∧
    fresnel_intensity 0 mat.ior < fresnel_intensity 90 mat.ior := by
  have hlt : f0_of_ior mat.ior < 1 := by
    have h : ∀ p ∈ SURFACE_MATERIALS, f0_of_ior p.2.ior < 1 := by
      intro p hp
      fin_cases hp <;> norm_num [f0_of_ior]
    exact h (m, mat) hm
  have hcast : ((f0_of_ior mat.ior : ℚ) : ℝ) =
      (((mat.ior : ℝ) - 1) / ((mat.ior : ℝ) + 1)) ^ 2 := by
    unfold f0_of_ior
    push_cast
    ring
  have h0 : fresnel_intensity 0 mat.ior =
      (((mat.ior : ℝ) - 1) / ((mat.ior : ℝ) + 1)) ^ 2 := by
    unfold fresnel_intensity
    norm_num
  have h90 : fresnel_intensity 90 mat.ior = 1 := by
    have hang : (90 : ℝ) * Real.pi / 180 = Real.pi / 2 := by ring
    simp only [fresnel_intensity, hang, Real.cos_pi_div_two]
    ring
  refine ⟨h0.trans hcast.symm, ?_⟩
  rw [h0, h90, ← hcast]
  exact_mod_cast hlt

/-- Witness for C1 at the mirror_glass entry. -/
theorem c1_fresnel_schlick_normal_vs_grazing_witness :
    fresnel_intensity 0 (1.52 : ℚ) = ((f0_of_ior (1.52 : ℚ) : ℚ) : ℝ) ∧
    fresnel_intensity 0 (1.52 : ℚ) < fresnel_intensity 90 (1.52 : ℚ) :=
  c1_fresnel_schlick_normal_vs_grazing "mirror_glass"
    ⟨"specular", 0.95, 0, 1.52, 0⟩ (List.mem_cons_self _ _)

/-! ### C3 -/

/-- C3: interpolation computes a * (1 - alpha) + b * alpha per dimension; at
alpha = 0 it returns the first state, at alpha = 1 the second, and for
0 <= alpha <= 1 every dimension lies between the endpoints inclusive. -/
theorem c3_interpolation_endpoints_and_bounds (a b : ParamName → ℝ) (alpha : ℝ)
    (h0 : 0 ≤ alpha) (h1 : alpha ≤ 1) :
    interpolate_reflection_states a b 0 = a ∧
    interpolate_reflection_states a b 1 = b ∧
    ∀ p : ParamName,
      interpolate_reflection_states a b alpha p = a p * (1 - alpha) + b p * alpha ∧
      min (a p) (b p) ≤ interpolate_reflection_states a b alpha p ∧
      interpolate_reflection_states a b alpha p ≤ max (a p) (b p) := by
  refine ⟨funext fun p => ?_, funext fun p => ?_, fun p => ⟨rfl, ?_, ?_⟩⟩
  · simp [interpolate_reflection_states]
  · simp [interpolate_reflection_states]
  · rcases le_total (a p) (b p) with h | h
    · rw [min_eq_left h]
      have := mul_nonneg h0 (sub_nonneg.2 h)
      simp only [interpolate_reflection_states]
      nlinarith
    · rw [min_eq_right h]
      have := mul_nonneg (sub_nonneg.2 h1) (sub_nonneg.2 h)
      simp only [interpolate_reflection_states]
      nlinarith
  · rcases le_total (a p) (b p) with h | h
    · rw [max_eq_right h]
      have := mul_nonneg (sub_nonneg.2 h1) (sub_nonneg.2 h)
      simp only [interpolate_reflection_states]
      nlinarith
    · rw [max_eq_left h]
      have := mul_nonneg h0 (sub_nonneg.2 h)
      simp only [interpolate_reflection_states]
      nlinarith

/-- Witness for C3 at alpha = 1/2 between the all-zero and all-one vectors. -/
theorem c3_interpolation_endpoints_and_bounds_witness :
    interpolate_reflection_states (fun _ => (0 : ℝ)) (fun _ => 1) 0 = (fun _ => 0) ∧
    interpolate_reflection_states (fun _ => (0 : ℝ)) (fun _ => 1) 1 = (fun _ => 1) ∧
    ∀ p : ParamName,
      interpolate_reflection_states (fun _ => (0 : ℝ)) (fun _ => 1) (1 / 2) p =
        (fun _ => (0 : ℝ)) p * (1 - 1 / 2) + (fun _ => (1 : ℝ)) p * (1 / 2) ∧
      min ((fun _ => (0 : ℝ)) p) ((fun _ => (1 : ℝ)) p) ≤
        interpolate_reflection_states (fun _ => (0 : ℝ)) (fun _ => 1) (1 / 2) p ∧
      interpolate_reflection_states (fun _ => (0 : ℝ)) (fun _ => 1) (1 / 2) p ≤
        max ((fun _ => (0 : ℝ)) p) ((fun _ => (1 : ℝ)) p) :=
  c3_interpolation_endpoints_and_bounds (fun _ => 0) (fun _ => 1) (1 / 2)
    (by norm_num) (by norm_num)

/-! ### C7 -/

/-- C7: an unrecognized waveform kind produces exactly the sinusoidal
sequence, and the rhythmic tool still succeeds (no error payload) on it when
both state names are valid. -/
theorem c7_unknown_pattern_falls_back_to_sinusoidal (pattern : String)
    (hp : pattern ∉ (["sinusoidal", "triangular", "square"] : List String)) :
    (∀ (num_steps : ℕ) (num_cycles : ℝ),
      generate_reflection_oscillation num_steps num_cycles pattern =
        generate_reflection_oscillation num_steps num_cycles "sinusoidal") ∧
    (∀ (sa sb : String) (nc spc : ℕ) (po : ℝ) (ca cb : CanonicalState),
      REFLECTION_CANONICAL_STATES.lookup sa = some ca →
      REFLECTION_CANONICAL_STATES.lookup sb = some cb →
      ∃ payload, generate_rhythmic_reflection_sequence sa sb pattern nc spc po =
        SeqResult.ok payload) := by
  simp only [List.mem_cons, List.not_mem_nil, or_false, not_or] at hp
  obtain ⟨h1, h2, h3⟩ := hp
  constructor
  · intro num_steps num_cycles
    unfold generate_reflection_oscillation
    refine List.map_congr_left fun i _ => ?_
    unfold oscillation_alpha
    rw [if_neg h1, if_neg h2, if_neg h3, if_pos rfl]
  · intro sa sb nc spc po ca cb hca hcb
    unfold generate_rhythmic_reflection_sequence
    rw [hca, hcb]
    exact ⟨_, rfl⟩

/-- Witness for C7 with the unrecognized waveform kind "quantum". -/
theorem c7_unknown_pattern_falls_back_to_sinusoidal_witness :
    generate_reflection_oscillation 8 2 "quantum" =
      generate_reflection_oscillation 8 2 "sinusoidal" ∧
    ∃ payload, generate_rhythmic_reflection_sequence "mirror_still" "frosted_pane"
      "quantum" 2 8 0 = SeqResult.ok payload := by
  have h := c7_unknown_pattern_falls_back_to_sinusoidal "quantum" (by decide)
  exact ⟨h.1 8 2, h.2 "mirror_still" "frosted_pane" 2 8 0 _ _ rfl rfl⟩

/-! ### C10 -/

/-- C10: an unknown material identifier is silently replaced by mirror_glass,
so compute_fresnel_intensity returns exactly the mirror_glass payload at the
same angle (no error payload exists in this operation). -/
theorem c10_unknown_material_uses_mirror_glass (theta : ℝ) (material_id : String)
    (hm : material_id ∉ SURFACE_MATERIALS.map Prod.fst) :
    compute_fresnel_intensity theta material_id =
      compute_fresnel_intensity theta "mirror_glass" := by
  unfold compute_fresnel_intensity
  rw [if_neg hm, if_pos (by decide : "mirror_glass" ∈ SURFACE_MATERIALS.map Prod.fst)]

/-- Witness for C10 at the unknown identifier "obsidian". -/
theorem c10_unknown_material_uses_mirror_glass_witness :
    compute_fresnel_intensity 45 "obsidian" =
      compute_fresnel_intensity 45 "mirror_glass" :=
  c10_unknown_material_uses_mirror_glass 45 "obsidian" (by decide)


/-! ### C2 -/

/-- C2: the oscillation generator returns exactly num_steps samples; the
rhythmic tool sequence has exactly num_cycles * steps_per_cycle entries for
every phase offset; sinusoidal and triangular samples lie in [0, 1]; square
samples are exactly 0 or exactly 1. -/
theorem c2_oscillation_length_and_bounds (num_steps nc spc : ℕ) (num_cycles : ℝ)
    (pattern : String) (hn : 0 < num_steps) (hc : 0 < num_cycles)
    (hnc : 0 < nc) (hspc : 0 < spc) :
    (generate_reflection_oscillation num_steps num_cycles pattern).length = num_steps ∧
    (∀ alpha ∈ generate_reflection_oscillation num_steps num_cycles "sinusoidal",
      0 ≤ alpha ∧ alpha ≤ 1) ∧
    (∀ alpha ∈ generate_reflection_oscillation num_steps num_cycles "triangular",
      0 ≤ alpha ∧ alpha ≤ 1) ∧
    (∀ alpha ∈ generate_reflection_oscillation num_steps num_cycles "square",
      alpha = 0 ∨ alpha = 1) ∧
    (∀ (sa sb pat : String) (po : ℝ) (payload : RhythmicPayload),
      generate_rhythmic_reflection_sequence sa sb pat nc spc po = SeqResult.ok payload →
      payload.sequence.length = nc * spc) := by
  refine ⟨?_, ?_, ?_, ?_, ?_⟩
  · simp [generate_reflection_oscillation]
  · intro alpha ha
    rw [generate_reflection_oscillation, List.mem_map] at ha
    obtain ⟨i, _, rfl⟩ := ha
    have hval : oscillation_alpha num_steps num_cycles "sinusoidal" i =
        0.5 * (1 + Real.sin (2 * Real.pi * num_cycles * (i : ℝ) / (num_steps : ℝ))) := by
      simp [oscillation_alpha]
    rw [hval]
    constructor
    · nlinarith [Real.neg_one_le_sin (2 * Real.pi * num_cycles * (i : ℝ) / (num_steps : ℝ))]
    · nlinarith [Real.sin_le_one (2 * Real.pi * num_cycles * (i : ℝ) / (num_steps : ℝ))]
  · intro alpha ha
    rw [generate_reflection_oscillation, List.mem_map] at ha
    obtain ⟨i, _, rfl⟩ := ha
    have hval : oscillation_alpha num_steps num_cycles "triangular" i =
        (if Int.fract (2 * Real.pi * num_cycles * (i : ℝ) / (num_steps : ℝ) / (2 * Real.pi)) < 0.5
         then 2 * Int.fract (2 * Real.pi * num_cycles * (i : ℝ) / (num_steps : ℝ) / (2 * Real.pi))
         else 2 * (1 - Int.fract (2 * Real.pi * num_cycles * (i : ℝ) / (num_steps : ℝ) / (2 * Real.pi)))) := by
      simp [oscillation_alpha]
    rw [hval]
    have h0 := Int.fract_nonneg
      (2 * Real.pi * num_cycles * (i : ℝ) / (num_steps : ℝ) / (2 * Real.pi))
    have h1 := Int.fract_lt_one
      (2 * Real.pi * num_cycles * (i : ℝ) / (num_steps : ℝ) / (2 * Real.pi))
    split_ifs with h <;> constructor <;> linarith
  · intro alpha ha
    rw [generate_reflection_oscillation, List.mem_map] at ha
    obtain ⟨i, _, rfl⟩ := ha
    have hval : oscillation_alpha num_steps num_cycles "square" i =
        (if Int.fract (2 * Real.pi * num_cycles * (i : ℝ) / (num_steps : ℝ) / (2 * Real.pi)) < 0.5
         then (0 : ℝ) else 1) := by
      simp [oscillation_alpha]
    rw [hval]
    split_ifs with h
    · exact Or.inl rfl
    · exact Or.inr rfl
  · intro sa sb pat po payload h
    unfold generate_rhythmic_reflection_sequence at h
    rcases hA : REFLECTION_CANONICAL_STATES.lookup sa with _ | ca
    · rw [hA] at h
      exact SeqResult.noConfusion h
    · rw [hA] at h
      rcases hB : REFLECTION_CANONICAL_STATES.lookup sb with _ | cb
      · rw [hB] at h
        exact SeqResult.noConfusion h
      · rw [hB] at h
        simp only at h
        cases h
        simp only [List.length_map, List.enum_length]
        have hlen0 : (generate_reflection_oscillation (nc * spc) nc pat).length
            = nc * spc := by
          simp [generate_reflection_oscillation]
        split_ifs with hpo
        · rw [List.length_append, List.length_drop, List.length_take, hlen0]
          rcases le_total ((⌊po * (spc : ℝ)⌋).toNat) (nc * spc) with hle | hle
          · rw [Nat.min_eq_left hle]
            omega
          · rw [Nat.min_eq_right hle]
            omega
        · exact hlen0

/-- Witness for C2 at 48 steps, 3 cycles of 16 steps. -/
theorem c2_oscillation_length_and_bounds_witness :
    (generate_reflection_oscillation 48 3 "sinusoidal").length = 48 ∧
    (∀ alpha ∈ generate_reflection_oscillation 48 3 "square", alpha = 0 ∨ alpha = 1) ∧
    (∀ (po : ℝ) (payload : RhythmicPayload),
      generate_rhythmic_reflection_sequence "mirror_still" "frosted_pane"
        "sinusoidal" 3 16 po = SeqResult.ok payload →
      payload.sequence.length = 3 * 16) := by
  have h := c2_oscillation_length_and_bounds 48 3 16 3 "sinusoidal"
    (by norm_num) (by norm_num) (by norm_num) (by norm_num)
  exact ⟨h.1, h.2.2.2.1, fun po payload hp =>
    h.2.2.2.2 "mirror_still" "frosted_pane" "sinusoidal" po payload hp⟩

/-! ### C5 -/

/-- C5: an unknown state identifier on either side makes the rhythmic tool
return the error payload naming that identifier and listing every valid
canonical state name, with no sequence data; two known identifiers always
produce the success payload (no error field). -/
theorem c5_rhythmic_sequence_unknown_state_error (sa sb pat : String)
    (nc spc : ℕ) (po : ℝ) :
    (sa ∉ REFLECTION_CANONICAL_STATES.map Prod.fst →
      generate_rhythmic_reflection_sequence sa sb pat nc spc po =
        SeqResult.error ("Unknown state: " ++ sa)
          (REFLECTION_CANONICAL_STATES.map Prod.fst)) ∧
    (sa ∈ REFLECTION_CANONICAL_STATES.map Prod.fst →
      sb ∉ REFLECTION_CANONICAL_STATES.map Prod.fst →
      generate_rhythmic_reflection_sequence sa sb pat nc spc po =
        SeqResult.error ("Unknown state: " ++ sb)
          (REFLECTION_CANONICAL_STATES.map Prod.fst)) ∧
    (sa ∈ REFLECTION_CANONICAL_STATES.map Prod.fst →
      sb ∈ REFLECTION_CANONICAL_STATES.map Prod.fst →
      ∃ payload, generate_rhythmic_reflection_sequence sa sb pat nc spc po =
        SeqResult.ok payload) := by
  refine ⟨?_, ?_, ?_⟩
  · intro ha
    have hA : REFLECTION_CANONICAL_STATES.lookup sa = none :=
      (lookup_none_iff_not_mem_keys _ _).2 ha
    unfold generate_rhythmic_reflection_sequence
    rw [hA]
  · intro ha hb
    obtain ⟨ca, hA⟩ := lookup_mem_keys_some _ _ ha
    have hB : REFLECTION_CANONICAL_STATES.lookup sb = none :=
      (lookup_none_iff_not_mem_keys _ _).2 hb
    unfold generate_rhythmic_reflection_sequence
    rw [hA, hB]
  · intro ha hb
    obtain ⟨ca, hA⟩ := lookup_mem_keys_some _ _ ha
    obtain ⟨cb, hB⟩ := lookup_mem_keys_some _ _ hb
    unfold generate_rhythmic_reflection_sequence
    rw [hA, hB]
    exact ⟨_, rfl⟩

/-- Witness for C5: known first state, unknown second state. -/
theorem c5_rhythmic_sequence_unknown_state_error_witness :
    generate_rhythmic_reflection_sequence "mirror_still" "nonexistent"
      "sinusoidal" 3 16 0 =
      SeqResult.error ("Unknown state: " ++ "nonexistent")
        (REFLECTION_CANONICAL_STATES.map Prod.fst) :=
  (c5_rhythmic_sequence_unknown_state_error "mirror_still" "nonexistent"
    "sinusoidal" 3 16 0).2.1 (by decide) (by decide)

/-! ### C9 -/

/-- C9: for every preset and keyframe count at least 2, sequence mode samples
keyframe_count indices i * (total - 1) / (count - 1), which always include
step 0 first and step total - 1 last and never exceed total - 1. -/
theorem c9_sequence_keyframe_indices (name : String) (cfg : RhythmicPreset)
    (hp : (name, cfg) ∈ REFLECTION_RHYTHMIC_PRESETS) (kc : ℕ) (hkc : 2 ≤ kc) :
    1 ≤ cfg.num_cycles * cfg.steps_per_cycle ∧
    (sequence_step_indices (cfg.num_cycles * cfg.steps_per_cycle) kc).length = kc ∧
    (sequence_step_indices (cfg.num_cycles * cfg.steps_per_cycle) kc).head? = some 0 ∧
    (sequence_step_indices (cfg.num_cycles * cfg.steps_per_cycle) kc).getLast? =
      some (cfg.num_cycles * cfg.steps_per_cycle - 1) ∧
    (∀ i : ℕ, i < kc →
      (sequence_step_indices (cfg.num_cycles * cfg.steps_per_cycle) kc)[i]? =
        some (i * (cfg.num_cycles * cfg.steps_per_cycle - 1) / (kc - 1))) ∧
    (∀ x ∈ sequence_step_indices (cfg.num_cycles * cfg.steps_per_cycle) kc,
      x ≤ cfg.num_cycles * cfg.steps_per_cycle - 1) := by
  have htpos : 1 ≤ cfg.num_cycles * cfg.steps_per_cycle := by
    have h : ∀ p ∈ REFLECTION_RHYTHMIC_PRESETS,
        1 ≤ p.2.num_cycles * p.2.steps_per_cycle := by decide
    exact h (name, cfg) hp
  have hlen : (sequence_step_indices (cfg.num_cycles * cfg.steps_per_cycle) kc).length = kc := by
    simp [sequence_step_indices]
  have hget : ∀ i : ℕ, i < kc →
      (sequence_step_indices (cfg.num_cycles * cfg.steps_per_cycle) kc)[i]? =
        some (i * (cfg.num_cycles * cfg.steps_per_cycle - 1) / (kc - 1)) := by
    intro i hi
    simp [sequence_step_indices, List.getElem?_map, List.getElem?_range, hi]
  refine ⟨htpos, hlen, ?_, ?_, hget, ?_⟩
  · have h0 := hget 0 (by omega)
    rw [List.head?_eq_getElem?]
    simpa using h0
  · have hlast := hget (kc - 1) (by omega)
    rw [List.getLast?_eq_getElem?, hlen, hlast]
    exact congrArg some (Nat.mul_div_cancel_left _ (by omega))
  · intro x hx
    rw [sequence_step_indices, List.mem_map] at hx
    obtain ⟨i, hi, rfl⟩ := hx
    calc i * (cfg.num_cycles * cfg.steps_per_cycle - 1) / (kc - 1) ≤
        (kc - 1) * (cfg.num_cycles * cfg.steps_per_cycle - 1) / (kc - 1) := by
          apply Nat.div_le_div_right
          apply Nat.mul_le_mul_right
          have := List.mem_range.1 hi
          omega
      _ = cfg.num_cycles * cfg.steps_per_cycle - 1 :=
          Nat.mul_div_cancel_left _ (by omega)

/-- Witness for C9 at the clarity_sweep preset with 4 keyframes. -/
theorem c9_sequence_keyframe_indices_witness :
    (sequence_step_indices 48 4).length = 4 ∧
    (sequence_step_indices 48 4).head? = some 0 ∧
    (sequence_step_indices 48 4).getLast? = some 47 := by
  have h := c9_sequence_keyframe_indices "clarity_sweep"
    ⟨"mirror_still", "frosted_pane", "sinusoidal", 3, 16,
     "Reflection clarity cycling from perfect specular mirror to heavy diffuse frost"⟩
    (by decide) 4 (by norm_num)
  exact ⟨h.2.1, h.2.2.1, h.2.2.2.1⟩


/-! ### C4 -/

lemma visual_types_length : REFLECTION_VISUAL_TYPES.length = 6 := rfl

lemma visual_types_ne_nil : REFLECTION_VISUAL_TYPES ≠ [] := by
  intro h
  have := congrArg List.length h
  rw [visual_types_length] at this
  simp at this

/-- The accumulated squared difference over the five dimensions between two
fully populated points equals the cast of its exact rational value. -/
lemma sq_diff_sum_lift (a b : Coords) :
    reflection_sq_diff_sum (lift_coords a) (lift_coords b) =
      ((sq_diff_sum_q a b : ℚ) : ℝ) := by
  simp only [reflection_sq_diff_sum, sq_diff_sum_q, REFLECTION_PARAMETER_NAMES,
    lift_coords, List.foldl_cons, List.foldl_nil, Option.getD_some]
  push_cast
  ring

lemma sq_diff_sum_q_self (a : Coords) : sq_diff_sum_q a a = 0 := by
  simp [sq_diff_sum_q, REFLECTION_PARAMETER_NAMES]

/-- The distance from a fully populated point to itself is zero. -/
lemma dist_lift_self (a : Coords) :
    reflection_param_distance (lift_coords a) (lift_coords a) = 0 := by
  rw [reflection_param_distance, sq_diff_sum_lift, sq_diff_sum_q_self]
  simp

/-- The six archetype reference vectors are pairwise at positive squared
distance. -/
lemma visual_types_pairwise_distinct :
    ∀ i j : Fin REFLECTION_VISUAL_TYPES.length, i ≠ j →
      0 < sq_diff_sum_q (REFLECTION_VISUAL_TYPES.get i).2
        (REFLECTION_VISUAL_TYPES.get j).2 := by
  intro i j hij
  fin_cases i <;> fin_cases j <;>
    first
      | exact absurd rfl hij
      | norm_num [sq_diff_sum_q, REFLECTION_VISUAL_TYPES,
          REFLECTION_PARAMETER_NAMES, Coords.get]

/-- The best-candidate fold of _find_nearest_reflection_visual_type returns
the first entry realising the minimal distance: its distance is a lower bound
for every entry and strictly below every earlier entry. -/
lemma find_nearest_foldl_spec (state : PartialState) (l : List (String × Coords))
    (hl : l ≠ []) :
    ∃ (k : ℕ) (hk : k < l.length),
      l.foldl (find_nearest_step state) none =
        some (l[k].1, reflection_param_distance state (lift_coords l[k].2), l[k].2) ∧
      (∀ (j : ℕ) (hj : j < l.length),
        reflection_param_distance state (lift_coords l[k].2) ≤
          reflection_param_distance state (lift_coords l[j].2)) ∧
      (∀ (j : ℕ) (hj : j < l.length), j < k →
        reflection_param_distance state (lift_coords l[k].2) <
          reflection_param_distance state (lift_coords l[j].2)) := by
  induction l using List.reverseRecOn with
  | nil => exact absurd rfl hl
  | append_singleton xs x ih =>
    rw [List.foldl_append, List.foldl_cons, List.foldl_nil]
    by_cases hxs : xs = []
    · subst hxs
      refine ⟨0, by simp, ?_, ?_, ?_⟩
      · simp [find_nearest_step]
      · intro j hj
        simp only [List.nil_append, List.length_singleton] at hj
        interval_cases j
        exact le_refl _
      · intro j hj hj0
        exact absurd hj0 (Nat.not_lt_zero j)
    · obtain ⟨k, hk, hfold, hmin, hfirst⟩ := ih hxs
      rw [hfold]
      simp only [find_nearest_step]
      by_cases hlt : reflection_param_distance state (lift_coords x.2) <
          reflection_param_distance state (lift_coords xs[k].2)
      · rw [if_pos hlt]
        have hklen : xs.length < (xs ++ [x]).length := by simp
        have hx : (xs ++ [x])[xs.length] = x :=
          List.getElem_concat_length xs x xs.length rfl hklen
        refine ⟨xs.length, hklen, ?_, ?_, ?_⟩
        · rw [hx]
        · intro j hj
          rw [hx]
          rw [List.length_append, List.length_singleton] at hj
          by_cases hjxs : j < xs.length
          · rw [List.getElem_append_left hjxs]
            exact le_of_lt (lt_of_lt_of_le hlt (hmin j hjxs))
          · have hjeq : j = xs.length := by omega
            subst hjeq
            rw [hx]
        · intro j hj hjk
          rw [hx]
          have hjxs : j < xs.length := hjk
          rw [List.getElem_append_left hjxs]
          exact lt_of_lt_of_le hlt (hmin j hjxs)
      · rw [if_neg hlt]
        have hk2 : k < (xs ++ [x]).length := by
          rw [List.length_append, List.length_singleton]
          omega
        have hgk : (xs ++ [x])[k] = xs[k] := List.getElem_append_left hk
        refine ⟨k, hk2, ?_, ?_, ?_⟩
        · rw [hgk]
        · intro j hj
          rw [hgk]
          rw [List.length_append, List.length_singleton] at hj
          by_cases hjxs : j < xs.length
          · rw [List.getElem_append_left hjxs]
            exact hmin j hjxs
          · have hjeq : j = xs.length := by omega
            subst hjeq
            have hklen : xs.length < (xs ++ [x]).length := by simp
            have hx : (xs ++ [x])[xs.length] = x :=
              List.getElem_concat_length xs x xs.length rfl hklen
            rw [hx]
            exact le_of_not_lt hlt
        · intro j hj hjk
          rw [hgk]
          have hjxs : j < xs.length := Nat.lt_trans hjk hk
          rw [List.getElem_append_left hjxs]
          exact hfirst j hjxs hjk

/-- C4: the mapper scans the fixed six archetypes and returns the one whose
reference vector minimises the Euclidean distance to the input (with missing
dimensions defaulting to 0.5), the first in iteration order winning exact
ties; mapping an archetype reference vector yields that archetype at
distance 0. -/
theorem c4_nearest_neighbor_mapping :
    REFLECTION_VISUAL_TYPES.length = 6 ∧
    (∀ state : PartialState,
      ∃ (k : ℕ) (hk : k < REFLECTION_VISUAL_TYPES.length),
        find_nearest_reflection_visual_type state =
          some (REFLECTION_VISUAL_TYPES[k].1,
            reflection_param_distance state (lift_coords REFLECTION_VISUAL_TYPES[k].2),
            REFLECTION_VISUAL_TYPES[k].2) ∧
        (∀ (j : ℕ) (hj : j < REFLECTION_VISUAL_TYPES.length),
          reflection_param_distance state (lift_coords REFLECTION_VISUAL_TYPES[k].2) ≤
            reflection_param_distance state (lift_coords REFLECTION_VISUAL_TYPES[j].2)) ∧
        (∀ (j : ℕ) (hj : j < REFLECTION_VISUAL_TYPES.length), j < k →
          reflection_param_distance state (lift_coords REFLECTION_VISUAL_TYPES[k].2) <
            reflection_param_distance state (lift_coords REFLECTION_VISUAL_TYPES[j].2))) ∧
    (∀ e ∈ REFLECTION_VISUAL_TYPES,
      find_nearest_reflection_visual_type (lift_coords e.2) = some (e.1, 0, e.2)) := by
  refine ⟨rfl, ?_, ?_⟩
  · intro state
    exact find_nearest_foldl_spec state REFLECTION_VISUAL_TYPES visual_types_ne_nil
  · intro e he
    obtain ⟨m, hm, hme⟩ := List.mem_iff_getElem.1 he
    obtain ⟨k, hk, hfold, hmin, hfirst⟩ :=
      find_nearest_foldl_spec (lift_coords e.2) REFLECTION_VISUAL_TYPES visual_types_ne_nil
    rw [show find_nearest_reflection_visual_type (lift_coords e.2) =
      REFLECTION_VISUAL_TYPES.foldl (find_nearest_step (lift_coords e.2)) none from rfl]
    have hdm : reflection_param_distance (lift_coords e.2)
        (lift_coords (REFLECTION_VISUAL_TYPES[m].2)) = 0 := by
      rw [hme]
      exact dist_lift_self e.2
    have hd0 : reflection_param_distance (lift_coords e.2)
        (lift_coords (REFLECTION_VISUAL_TYPES[k].2)) = 0 := by
      refine le_antisymm ?_ (Real.sqrt_nonneg _)
      calc reflection_param_distance (lift_coords e.2)
            (lift_coords (REFLECTION_VISUAL_TYPES[k].2)) ≤
          reflection_param_distance (lift_coords e.2)
            (lift_coords (REFLECTION_VISUAL_TYPES[m].2)) := hmin m hm
        _ = 0 := hdm
    have hkm : k = m := by
      by_contra hne
      have hpos := visual_types_pairwise_distinct ⟨m, hm⟩ ⟨k, hk⟩
        (by simp [Fin.ext_iff]; omega)
      rw [List.get_eq_getElem, List.get_eq_getElem] at hpos
      have hcast : reflection_param_distance (lift_coords e.2)
          (lift_coords (REFLECTION_VISUAL_TYPES[k].2)) =
          Real.sqrt ((sq_diff_sum_q (REFLECTION_VISUAL_TYPES[m].2)
            (REFLECTION_VISUAL_TYPES[k].2) : ℚ) : ℝ) := by
        rw [reflection_param_distance, ← hme, sq_diff_sum_lift]
      rw [hcast] at hd0
      have hq : ((sq_diff_sum_q (REFLECTION_VISUAL_TYPES[m].2)
          (REFLECTION_VISUAL_TYPES[k].2) : ℚ) : ℝ) ≤ 0 :=
        Real.sqrt_eq_zero'.1 hd0
      have : (0 : ℝ) < ((sq_diff_sum_q (REFLECTION_VISUAL_TYPES[m].2)
          (REFLECTION_VISUAL_TYPES[k].2) : ℚ) : ℝ) := by exact_mod_cast hpos
      linarith
    subst hkm
    rw [hfold, hd0, hme]

/-- Witness for C4: the perfect_mirror reference vector maps to
perfect_mirror at distance 0. -/
theorem c4_nearest_neighbor_mapping_witness :
    find_nearest_reflection_visual_type
      (lift_coords ⟨0.95, 0.02, 0.05, 0, 0.5⟩) =
      some ("perfect_mirror", 0, ⟨0.95, 0.02, 0.05, 0, 0.5⟩) :=
  c4_nearest_neighbor_mapping.2.2 ("perfect_mirror", ⟨0.95, 0.02, 0.05, 0, 0.5⟩)
    (List.mem_cons_self _ _)


/-! ### C6 -/

/-- Every input state has a nearest visual type (the archetype table is
nonempty). -/
lemma find_nearest_isSome (state : PartialState) :
    ∃ r, find_nearest_reflection_visual_type state = some r := by
  obtain ⟨k, hk, hfold, -, -⟩ :=
    find_nearest_foldl_spec state REFLECTION_VISUAL_TYPES visual_types_ne_nil
  exact ⟨_, hfold⟩

/-- C6 counterexample: the well-formed JSON input 5 decodes to a non-object,
so extract_reflection_visual_vocabulary raises an uncaught AttributeError
instead of returning a structured error payload. -/
theorem c6_nondict_input_raises :
    extract_reflection_visual_vocabulary (some (Json.num 5)) =
      Except.error PyExc.attributeError := rfl

/-- C6 amended: the decode failure is caught and returns an error payload,
and every decoded object whose present dimension values are numeric yields a
success payload; but a decoded value that is not an object raises an uncaught
AttributeError (and non-numeric dimension values raise TypeError). -/
theorem c6_amended_local_error_recovery :
    (extract_reflection_visual_vocabulary none =
      Except.ok (VocabResult.errorPayload ("Invalid JSON for state parameter"))) ∧
    (∀ l : List (String × Json),
      (∀ p : ParamName, ∃ q : ℚ, state_get_num l p = Except.ok q) →
      ∃ n d f, extract_reflection_visual_vocabulary (some (Json.obj l)) =
        Except.ok (VocabResult.success n d f)) ∧
    (∀ j : Json, (∀ l, j ≠ Json.obj l) →
      extract_reflection_visual_vocabulary (some j) =
        Except.error PyExc.attributeError) := by
  refine ⟨rfl, ?_, ?_⟩
  · intro l hl
    obtain ⟨q1, h1⟩ := hl ParamName.reflection_clarity
    obtain ⟨q2, h2⟩ := hl ParamName.surface_roughness
    obtain ⟨q3, h3⟩ := hl ParamName.metallic_character
    obtain ⟨q4, h4⟩ := hl ParamName.geometric_distortion
    obtain ⟨q5, h5⟩ := hl ParamName.environmental_drama
    obtain ⟨r, hr⟩ := find_nearest_isSome (lift_vec (vec_of q1 q2 q3 q4 q5))
    refine ⟨r.1, r.2.1, vec_of q1 q2 q3 q4 q5, ?_⟩
    simp only [extract_reflection_visual_vocabulary, h1, h2, h3, h4, h5, hr]
  · intro j hj
    cases j with
    | null => rfl
    | bool b => rfl
    | num q => rfl
    | str s2 => rfl
    | arr l2 => rfl
    | obj l2 => exact absurd rfl (hj l2)

/-- Witness for C6 amended: undecodable input gives the error payload, the
empty object succeeds with all-default dimensions, a string input raises. -/
theorem c6_amended_local_error_recovery_witness :
    (extract_reflection_visual_vocabulary none =
      Except.ok (VocabResult.errorPayload ("Invalid JSON for state parameter"))) ∧
    (∃ n d f, extract_reflection_visual_vocabulary (some (Json.obj [])) =
      Except.ok (VocabResult.success n d f)) ∧
    (extract_reflection_visual_vocabulary (some (Json.str "oops")) =
      Except.error PyExc.attributeError) := by
  have h := c6_amended_local_error_recovery
  exact ⟨h.1, h.2.1 [] (fun p => ⟨1 / 2, rfl⟩),
    h.2.2 (Json.str "oops") (fun l h2 => Json.noConfusion h2)⟩


/-! ### C8 -/

lemma foldl_min_mem (x : ℚ) (xs : List ℚ) : xs.foldl min x ∈ x :: xs := by
  induction xs generalizing x with
  | nil => simp
  | cons y ys ih =>
    rw [List.foldl_cons]
    rcases List.mem_cons.1 (ih (min x y)) with h | h
    · rw [h]
      rcases min_choice x y with h2 | h2
      · rw [h2]
        exact List.mem_cons_self _ _
      · rw [h2]
        exact List.mem_cons_of_mem _ (List.mem_cons_self _ _)
    · exact List.mem_cons_of_mem _ (List.mem_cons_of_mem _ h)

lemma foldl_max_mem (x : ℚ) (xs : List ℚ) : xs.foldl max x ∈ x :: xs := by
  induction xs generalizing x with
  | nil => simp
  | cons y ys ih =>
    rw [List.foldl_cons]
    rcases List.mem_cons.1 (ih (max x y)) with h | h
    · rw [h]
      rcases max_choice x y with h2 | h2
      · rw [h2]
        exact List.mem_cons_self _ _
      · rw [h2]
        exact List.mem_cons_of_mem _ (List.mem_cons_self _ _)
    · exact List.mem_cons_of_mem _ (List.mem_cons_of_mem _ h)

lemma foldl_min_le (x : ℚ) (xs : List ℚ) : ∀ y ∈ x :: xs, xs.foldl min x ≤ y := by
  induction xs generalizing x with
  | nil =>
    intro y hy
    rw [List.mem_singleton] at hy
    subst hy
    exact le_refl _
  | cons z zs ih =>
    intro y hy
    rw [List.foldl_cons]
    rcases List.mem_cons.1 hy with h1 | hy2
    · rw [h1]
      exact le_trans (ih (min x z) (min x z) (List.mem_cons_self _ _)) (min_le_left _ _)
    · rcases List.mem_cons.1 hy2 with h2 | hy3
      · rw [h2]
        exact le_trans (ih (min x z) (min x z) (List.mem_cons_self _ _)) (min_le_right _ _)
      · exact ih (min x z) y (List.mem_cons_of_mem _ hy3)

lemma foldl_max_ge (x : ℚ) (xs : List ℚ) : ∀ y ∈ x :: xs, y ≤ xs.foldl max x := by
  induction xs generalizing x with
  | nil =>
    intro y hy
    rw [List.mem_singleton] at hy
    subst hy
    exact le_refl _
  | cons z zs ih =>
    intro y hy
    rw [List.foldl_cons]
    rcases List.mem_cons.1 hy with h1 | hy2
    · rw [h1]
      exact le_trans (le_max_left _ _) (ih (max x z) (max x z) (List.mem_cons_self _ _))
    · rcases List.mem_cons.1 hy2 with h2 | hy3
      · rw [h2]
        exact le_trans (le_max_right _ _) (ih (max x z) (max x z) (List.mem_cons_self _ _))
      · exact ih (max x z) y (List.mem_cons_of_mem _ hy3)

lemma round3_intCast_div (n : ℤ) : round3 ((n : ℚ) / 1000) = (n : ℚ) / 1000 := by
  unfold round3
  rw [div_mul_cancel₀, round_intCast]
  norm_num

/-- round-3 fixes exactly the values on the 3-decimal grid. -/
lemma round3_eq_self_iff (x : ℚ) : round3 x = x ↔ ∃ n : ℤ, x = (n : ℚ) / 1000 := by
  constructor
  · intro h
    exact ⟨round (x * 1000), h.symm⟩
  · rintro ⟨n, rfl⟩
    exact round3_intCast_div n

lemma round3_fixed_sub {a b : ℚ} (ha : round3 a = a) (hb : round3 b = b) :
    round3 (a - b) = a - b := by
  obtain ⟨m, rfl⟩ := (round3_eq_self_iff a).1 ha
  obtain ⟨n, rfl⟩ := (round3_eq_self_iff b).1 hb
  have h : (m : ℚ) / 1000 - (n : ℚ) / 1000 = ((m - n : ℤ) : ℚ) / 1000 := by
    push_cast
    ring
  rw [h]
  exact round3_intCast_div _

/-- C8: the comparison rejects undecodable input, non-list input and lists of
fewer than two scenarios with an error payload; over the collected
per-scenario effective visibilities (3-decimal values, on which round-3 is
the identity) the span reports min, max, and delta = max - min, and the
significant-contrast note appears exactly when the delta exceeds 0.4. -/
theorem c8_scenario_comparison_gate_and_span :
    (compare_scenarios_gate none =
      CompareGate.error ("Invalid JSON format for scenarios")) ∧
    (∀ l : List Json, l.length < 2 →
      compare_scenarios_gate (some (Json.arr l)) =
        CompareGate.error ("Provide at least 2 scenarios as JSON array")) ∧
    (∀ l : List Json, 2 ≤ l.length →
      compare_scenarios_gate (some (Json.arr l)) = CompareGate.proceed l) ∧
    (∀ j : Json, (∀ l, j ≠ Json.arr l) →
      compare_scenarios_gate (some j) =
        CompareGate.error ("Provide at least 2 scenarios as JSON array")) ∧
    (∀ vis : List ℚ, vis ≠ [] → (∀ v ∈ vis, round3 v = v) →
      (comparative_span_of vis).sMin ∈ vis ∧
      (comparative_span_of vis).sMax ∈ vis ∧
      (∀ v ∈ vis, (comparative_span_of vis).sMin ≤ v ∧
        v ≤ (comparative_span_of vis).sMax) ∧
      (comparative_span_of vis).sDelta =
        (comparative_span_of vis).sMax - (comparative_span_of vis).sMin ∧
      (∀ ds : SpanQ,
        vis_note ∈ aesthetic_trade_offs (comparative_span_of vis) ds ↔
          (comparative_span_of vis).sDelta > 0.4)) := by
  refine ⟨rfl, ?_, ?_, ?_, ?_⟩
  · intro l hl
    simp [compare_scenarios_gate, hl]
  · intro l hl
    simp [compare_scenarios_gate, Nat.not_lt.2 hl]
  · intro j hj
    cases j with
    | arr l => exact absurd rfl (hj l)
    | null => rfl
    | bool b => rfl
    | num q => rfl
    | str s2 => rfl
    | obj l2 => rfl
  · intro vis hne hfix
    obtain ⟨v0, vs, rfl⟩ := List.exists_cons_of_ne_nil hne
    have hminmem : listMinQ (v0 :: vs) ∈ v0 :: vs := foldl_min_mem v0 vs
    have hmaxmem : listMaxQ (v0 :: vs) ∈ v0 :: vs := foldl_max_mem v0 vs
    have hfixmin : round3 (listMinQ (v0 :: vs)) = listMinQ (v0 :: vs) :=
      hfix _ hminmem
    have hfixmax : round3 (listMaxQ (v0 :: vs)) = listMaxQ (v0 :: vs) :=
      hfix _ hmaxmem
    have hfixdelta : round3 (listMaxQ (v0 :: vs) - listMinQ (v0 :: vs)) =
        listMaxQ (v0 :: vs) - listMinQ (v0 :: vs) :=
      round3_fixed_sub hfixmax hfixmin
    have hspan : comparative_span_of (v0 :: vs) =
        { sMin := listMinQ (v0 :: vs), sMax := listMaxQ (v0 :: vs),
          sDelta := listMaxQ (v0 :: vs) - listMinQ (v0 :: vs) } := by
      simp only [comparative_span_of, hfixmin, hfixmax, hfixdelta]
    rw [hspan]
    refine ⟨hminmem, hmaxmem,
      fun v hv => ⟨foldl_min_le v0 vs v hv, foldl_max_ge v0 vs v hv⟩, rfl, ?_⟩
    intro ds
    simp only [aesthetic_trade_offs]
    constructor
    · intro hmem
      by_cases hgt : (listMaxQ (v0 :: vs) - listMinQ (v0 :: vs) : ℚ) > 0.4
      · exact hgt
      · exfalso
        rw [if_neg hgt, List.nil_append] at hmem
        by_cases hd : ds.sDelta > (0.3 : ℚ)
        · rw [if_pos hd, List.mem_singleton] at hmem
          exact absurd hmem (by decide)
        · rw [if_neg hd] at hmem
          exact List.not_mem_nil _ hmem
    · intro hgt
      rw [if_pos hgt]
      exact List.mem_append_left _ (List.mem_cons_self _ _)

/-- Witness for C8: the empty scenario list is rejected, and visibilities
0.8 and 0.3 give min 0.3, max 0.8, delta 0.5 and trigger the note. -/
theorem c8_scenario_comparison_gate_and_span_witness :
    compare_scenarios_gate (some (Json.arr [])) =
      CompareGate.error ("Provide at least 2 scenarios as JSON array") ∧
    (comparative_span_of [0.8, 0.3]).sMin = 0.3 ∧
    (comparative_span_of [0.8, 0.3]).sMax = 0.8 ∧
    (comparative_span_of [0.8, 0.3]).sDelta = 0.5 ∧
    vis_note ∈ aesthetic_trade_offs (comparative_span_of [0.8, 0.3]) ⟨0, 0, 0⟩ := by
  have h := c8_scenario_comparison_gate_and_span
  have hmax : listMaxQ ([0.8, 0.3] : List ℚ) = 0.8 := by
    show ([0.3] : List ℚ).foldl max 0.8 = 0.8
    rw [List.foldl_cons, List.foldl_nil]
    exact max_eq_left (by norm_num)
  have hmin : listMinQ ([0.8, 0.3] : List ℚ) = 0.3 := by
    show ([0.3] : List ℚ).foldl min 0.8 = 0.3
    rw [List.foldl_cons, List.foldl_nil]
    exact min_eq_right (by norm_num)
  have hfix : ∀ v ∈ ([0.8, 0.3] : List ℚ), round3 v = v := by
    intro v hv
    rcases List.mem_cons.1 hv with rfl | hv2
    · exact (round3_eq_self_iff _).2 ⟨800, by norm_num⟩
    · rcases List.mem_cons.1 hv2 with rfl | hv3
      · exact (round3_eq_self_iff _).2 ⟨300, by norm_num⟩
      · exact absurd hv3 (List.not_mem_nil v)
  have hsmin : (comparative_span_of [0.8, 0.3]).sMin = 0.3 := by
    simp only [comparative_span_of]
    rw [hmin]
    exact (round3_eq_self_iff _).2 ⟨300, by norm_num⟩
  have hsmax : (comparative_span_of [0.8, 0.3]).sMax = 0.8 := by
    simp only [comparative_span_of]
    rw [hmax]
    exact (round3_eq_self_iff _).2 ⟨800, by norm_num⟩
  have hs := h.2.2.2.2 [0.8, 0.3] (by simp) hfix
  have hdelta : (comparative_span_of [0.8, 0.3]).sDelta = 0.5 := by
    rw [hs.2.2.2.1, hsmin, hsmax]
    norm_num
  refine ⟨h.2.1 [] (by simp), hsmin, hsmax, hdelta, ?_⟩
  refine (hs.2.2.2.2 ⟨0, 0, 0⟩).2 ?_
  rw [hdelta]
  norm_num

end ReflectiveSurfaces
